import Mathlib

/-!
Verification development for the spotify-downloader repository.

The Python source under `spotdl/` is shallowly embedded below: pure string
manipulation becomes Lean functions on `String`/`List Char`, the download
pipeline's file-system and tracker effects become explicit state passing over a
small file-system model, external collaborators (YouTube fetch, ffmpeg process,
tag writer, fuzzy-ratio library) become oracle parameters, and Python
exceptions become `Except`/`Option` results.  Each definition is translated
from the named source location; deliberate source slips are reproduced and
marked with a comment citing the line.
-/

/-! ## Python string primitives used by the source -/

/-- Python's `c in "..."`-style membership and `str.lower()` are ASCII-faithful
here; every string the claims touch is ASCII. -/
def pyLower (s : String) : String := String.mk (s.toList.map Char.toLower)

/-- Model of `needle_prefix` matching: does the first list start the second? -/
def startsL : List Char → List Char → Bool
  | [], _ => true
  | _ :: _, [] => false
  | n :: ns, h :: hs => n = h && startsL ns hs

/-- Python's substring test `needle in hay` (contiguous substring; the empty
string is in every string). -/
def subL : List Char → List Char → Bool
  | needle, hay =>
    startsL needle hay ||
      (match hay with
       | [] => false
       | _ :: t => subL needle t)

/-- Python `needle in hay` on `String`. -/
def pyIn (needle hay : String) : Bool := subL needle.toList hay.toList

/-- The comma-space join `", ".join(...)` (and `str.join` generally). -/
def intercalateC (sep : List Char) : List (List Char) → List Char
  | [] => []
  | [a] => a
  | a :: rest => a ++ sep ++ intercalateC sep rest

/-- CPython object identity between the results of two separate `str.lower()`
calls (the source compares them with `is`): `lower()` always allocates a fresh
object, except that the empty string and one-character latin-1 strings are
interned singletons.  So the two results are the *same object* iff they are
equal and of length at most one with a latin-1 character. -/
def lowerIsIdentical (a b : String) : Bool :=
  a == b && (a.length == 0 || (a.length == 1 && a.toList.all (fun c => c.toNat < 256)))

/-! ## Data model (`spotdl/search/song_object.py`)

The Spotify API responses are consumed by the program as loosely-typed nested
dicts; we model exactly the entries the embedded code reads.  `Meta` is the
shape shared by the album and artist metadata blocks (the program reads their
`genres` lists); sharing one type mirrors the fact that in Python both slots
hold plain dicts and either dict can flow into either slot. -/

structure Meta where
  genres : List String
  deriving DecidableEq, Repr

structure TrackMeta where
  name : String
  artists : List String
  deriving DecidableEq, Repr

structure SongObject where
  rawTrackMeta : TrackMeta
  rawAlbumMeta : Meta
  rawArtistMeta : Meta
  youtubeLink : String
  lyrics : Option String
  deriving DecidableEq, Repr

def SongObject.song_name (s : SongObject) : String := s.rawTrackMeta.name

def SongObject.contributing_artists (s : SongObject) : List String := s.rawTrackMeta.artists

/-- The serialized form written to the tracking file (`SongObject.data_dump`,
song_object.py lines 149-171): a dict with the five keys below. -/
structure DataDump where
  youtube_link : String
  raw_track_meta : TrackMeta
  raw_album_meta : Meta
  raw_artist_meta : Meta
  lyrics : Option String
  deriving DecidableEq, Repr

def SongObject.data_dump (s : SongObject) : DataDump :=
  { youtube_link := s.youtubeLink
    raw_track_meta := s.rawTrackMeta
    raw_album_meta := s.rawAlbumMeta
    raw_artist_meta := s.rawArtistMeta
    lyrics := s.lyrics }

/-- `SongObject.__eq__` (song_object.py lines 16-20): equality of data dumps. -/
def songEq (a b : SongObject) : Bool := a.data_dump == b.data_dump

/-- `song_gatherer.from_dump` (song_gatherer.py lines 389-406).  Source line
400 reads the `"raw_album_meta"` key into the `raw_artist_meta` variable:
`raw_artist_meta = data_dump["raw_album_meta"]`; the embedding reproduces
that assignment. -/
def from_dump (data_dump : DataDump) : SongObject :=
  { rawTrackMeta := data_dump.raw_track_meta
    rawAlbumMeta := data_dump.raw_album_meta
    rawArtistMeta := data_dump.raw_album_meta
    youtubeLink := data_dump.youtube_link
    lyrics := data_dump.lyrics }

/-- Concrete song whose album and artist metadata blocks differ. -/
def c2song : SongObject :=
  { rawTrackMeta := { name := "Song Title", artists := ["Artist Name"] }
    rawAlbumMeta := { genres := ["rock"] }
    rawArtistMeta := { genres := ["pop"] }
    youtubeLink := "https://youtu.be/x"
    lyrics := none }

/-- Claim C2: the persistence round-trip is claimed to be the identity under
the program's dump-equality: `from_dump(s.data_dump) == s` for every
`SongObject s`.  This fails: `from_dump` copies the dump's album metadata into
the artist slot (song_gatherer.py line 400), so on any song whose album and
artist metadata differ the reconstructed song is not dump-equal to the
original.  The theorem evaluates the code at such a song. -/
theorem c2_from_dump_not_roundtrip :
    songEq (from_dump (SongObject.data_dump c2song)) c2song = false ∧
    (from_dump (SongObject.data_dump c2song)).rawArtistMeta = c2song.rawAlbumMeta ∧
    c2song.rawAlbumMeta ≠ c2song.rawArtistMeta := by
  decide

/-! ## File-name computation (`downloader.py`, `song_object.py`, `song_gatherer.py`) -/

/-- Paths are modelled as plain file names: every path the claims touch is
relative to the working directory and contains no separator (the sanitizers
strip `/`); the temp folder is modelled by the literal prefix `Temp/`. -/
abbrev FPath := String

/-- Characters removed outright by `_sanitize_filename` (downloader.py line 23,
the string `"/?\\*|<>"`). -/
def sanitizeDisallowed : List Char := ['/', '?', '\\', '*', '|', '<', '>']

/-- Python `str.replace` with a single-character pattern, on char lists. -/
def replaceC (c : Char) (r : List Char) : List Char → List Char
  | [] => []
  | x :: t => (if x = c then r else [x]) ++ replaceC c r t

/-- `_sanitize_filename` (downloader.py lines 19-29): drop the disallowed
characters, then substitute double quotes and colons. -/
def _sanitize_filename (input_str : String) : String :=
  String.mk
    (replaceC ':' ['-']
      (replaceC '"' ['\'']
        (input_str.toList.filter (fun c => !(sanitizeDisallowed.contains c)))))

/-- `_get_smaller_file_path` (downloader.py lines 32-54): only the first artist
is used; the body applies the same filter/substitutions as
`_sanitize_filename` and then calls `_sanitize_filename` once more (the
transformation is idempotent, both applications are kept).  The source indexes
`contributing_artists[0]`, raising on an empty artist list; no claim involves
an empty artist list, so the head default is never reached there. -/
def _get_smaller_file_path (input_song : SongObject) (output_format : String) : FPath :=
  _sanitize_filename
      (_sanitize_filename
        (input_song.contributing_artists.headD "" ++ " - " ++ input_song.song_name)) ++
    "." ++ output_format

/-- `_get_converted_file_path` (downloader.py lines 57-94).  An artist is kept
if its lowercase form does not occur in the *unlowered* song name (line 73:
`artist.lower() not in song_obj.song_name`), or — the branch the comment at
lines 63-65 intends to keep the main artist with — if `artist.lower() is
contributing_artists[0].lower()` (line 75), an object-identity test between two
fresh `lower()` results, modelled by `lowerIsIdentical`.  The 256-character
check on line 88 measures the resolved file name. -/
def _get_converted_file_path (song_obj : SongObject) (output_format : Option String) : FPath :=
  let fmt := match output_format with
    | none => "mp3"
    | some f => f
  let artists_filtered := song_obj.contributing_artists.filter (fun artist =>
    if !(pyIn (pyLower artist) song_obj.song_name) then true
    else lowerIsIdentical (pyLower artist) (pyLower (song_obj.contributing_artists.headD "")))
  let converted_file_name :=
    _sanitize_filename
      (String.mk (intercalateC ", ".toList (artists_filtered.map String.toList)) ++
        " - " ++ song_obj.song_name ++ "." ++ fmt)
  if converted_file_name.length > 256 then _get_smaller_file_path song_obj fmt
  else converted_file_name

/-- `SongObject.create_file_name` (song_object.py lines 180-204): the main
artist is always included; each further artist is kept when its lowercase form
does not occur in the *lowercase* song name; lines 195-202 then repeat the
`_sanitize_filename` transformation verbatim, shared here as one definition. -/
def SongObject.create_file_name (song_name : String) (song_artists : List String) : String :=
  let artistStr := (song_artists.drop 1).foldl
    (fun acc artist =>
      if !(pyIn (pyLower artist) (pyLower song_name)) then acc ++ ", " ++ artist else acc)
    (song_artists.headD "")
  _sanitize_filename (artistStr ++ " - " ++ song_name)

/-- The final-artifact file name computed at gathering time
(`from_spotify_url`, song_gatherer.py lines 45-56): `create_file_name`, a
250-character fallback to the first artist alone, and the `.{format}`
suffix. -/
def gathererFileName (song : SongObject) (output_format : Option String) : FPath :=
  let fmt := match output_format with
    | none => "mp3"
    | some f => f
  let n := SongObject.create_file_name song.song_name song.contributing_artists
  let n2 := if n.length > 250 then
      SongObject.create_file_name song.song_name [song.contributing_artists.headD ""]
    else n
  n2 ++ "." ++ fmt

/-- Concrete song whose title contains the main artist's name in lowercase. -/
def c10song : SongObject :=
  { rawTrackMeta :=
      { name := "never recover (lil baby & gunna, drake)"
        artists := ["Lil Baby", "Gunna", "Drake"] }
    rawAlbumMeta := { genres := [] }
    rawArtistMeta := { genres := [] }
    youtubeLink := "https://youtu.be/y"
    lyrics := none }

/-- Claim C10: the skip check's file name (`_get_converted_file_path`) is
claimed to equal the gathering-time file name (`create_file_name` plus the
format suffix), both always containing the main artist.  This fails: on a song
whose title contains the main artist's name in lowercase, line 73's
case-sensitive containment fires and line 75's `is` comparison of two fresh
`lower()` results is object-inequality, so `_get_converted_file_path` drops
the main artist while `create_file_name` keeps it, and the two names differ —
contradicting the source's own comment (downloader.py lines 63-65) that the
main artist is included even when it occurs in the song name. -/
theorem c10_skip_path_differs_from_gatherer_path :
    _get_converted_file_path c10song (some "mp3") ≠ gathererFileName c10song (some "mp3") ∧
    pyIn "Lil Baby" (_get_converted_file_path c10song (some "mp3")) = false ∧
    pyIn "Lil Baby" (gathererFileName c10song (some "mp3")) = true ∧
    _get_converted_file_path c10song (some "mp3") =
      " - never recover (lil baby & gunna, drake).mp3" ∧
    gathererFileName c10song (some "mp3") =
      "Lil Baby - never recover (lil baby & gunna, drake).mp3" := by
  decide

/-! ## File-system model

The pipeline's disk effects are explicit: a file system is a flat association
list from paths to contents (audio bytes are opaque tokens, tracking files hold
the list of serialized dumps they record) plus a set of directories.  Deleting
a missing file raises, as `pathlib.Path.unlink` does. -/

inductive FileContent
  | audio (v : Nat)
  | tracking (dumps : List DataDump)
  deriving DecidableEq, Repr

inductive PyExn
  | keyError
  | fileNotFound
  deriving DecidableEq, Repr

structure FS where
  files : List (FPath × FileContent)
  dirs : List FPath
  deriving DecidableEq, Repr

def lookupF : List (FPath × FileContent) → FPath → Option FileContent
  | [], _ => none
  | e :: rest, p => if e.1 = p then some e.2 else lookupF rest p

def keepF (pred : FPath → Bool) : List (FPath × FileContent) → List (FPath × FileContent)
  | [] => []
  | e :: rest => if pred e.1 then e :: keepF pred rest else keepF pred rest

theorem lookupF_keepF (pred : FPath → Bool) (l : List (FPath × FileContent)) (p : FPath) :
    lookupF (keepF pred l) p = if pred p = true then lookupF l p else none := by
  induction l with
  | nil => simp only [keepF, lookupF]; split <;> rfl
  | cons e rest ih =>
    cases hpe : pred e.1 with
    | true =>
      by_cases hep : e.1 = p
      · subst hep; simp [keepF, lookupF, hpe]
      · simp [keepF, lookupF, hpe, hep, ih]
    | false =>
      by_cases hep : e.1 = p
      · subst hep; simp [keepF, lookupF, hpe, ih]
      · simp [keepF, lookupF, hpe, hep, ih]

def FS.lookup (fs : FS) (p : FPath) : Option FileContent := lookupF fs.files p

def FS.isFile (fs : FS) (p : FPath) : Bool := (fs.lookup p).isSome

def FS.write (fs : FS) (p : FPath) (c : FileContent) : FS :=
  { fs with files := (p, c) :: keepF (fun q => decide (q ≠ p)) fs.files }

def FS.eraseFile (fs : FS) (p : FPath) : FS :=
  { fs with files := keepF (fun q => decide (q ≠ p)) fs.files }

/-- `pathlib.Path.unlink`: removes the file or raises `FileNotFoundError`. -/
def FS.unlink (fs : FS) (p : FPath) : Except PyExn FS :=
  if fs.isFile p then .ok (fs.eraseFile p) else .error .fileNotFound

/-- `Path(".", "Temp").mkdir()` guarded by an existence check
(downloader.py lines 223-226); the file map is untouched. -/
def FS.mkdirIfMissing (fs : FS) (d : FPath) : FS :=
  { fs with dirs := if fs.dirs.contains d then fs.dirs else d :: fs.dirs }

theorem FS.lookup_write_self (fs : FS) (p : FPath) (c : FileContent) :
    (fs.write p c).lookup p = some c := by
  simp [FS.write, FS.lookup, lookupF]

theorem FS.lookup_write_ne (fs : FS) (p q : FPath) (c : FileContent) (h : q ≠ p) :
    (fs.write p c).lookup q = fs.lookup q := by
  have h2 : p ≠ q := fun hh => h hh.symm
  simp [FS.write, FS.lookup, lookupF, lookupF_keepF, h, h2]

theorem FS.lookup_erase_self (fs : FS) (p : FPath) :
    (fs.eraseFile p).lookup p = none := by
  simp [FS.eraseFile, FS.lookup, lookupF_keepF]

theorem FS.lookup_erase_ne (fs : FS) (p q : FPath) (h : q ≠ p) :
    (fs.eraseFile p).lookup q = fs.lookup q := by
  simp [FS.eraseFile, FS.lookup, lookupF_keepF, h]

theorem FS.lookup_mkdir (fs : FS) (d : FPath) (q : FPath) :
    (fs.mkdirIfMissing d).lookup q = fs.lookup q := rfl

/-! ## The TrackingStore (`spotdl/download/trackingfileHandlers.py`) -/

structure DownloadTracker where
  song_list : List SongObject
  save_file : Option FPath
  deriving DecidableEq, Repr

/-- Tracking-file naming (trackingfileHandlers.py lines 78-89): strip the
disallowed characters (the same seven as `_sanitize_filename`), substitute
double quotes with quotes and colons with `" - "`, and append the
`.spotdlTrackingFile` suffix. -/
def trackingFileName (songName : String) : FPath :=
  String.mk
      (replaceC ':' [' ', '-', ' ']
        (replaceC '"' ['\'']
          (songName.toList.filter (fun c => !(sanitizeDisallowed.contains c))))) ++
    ".spotdlTrackingFile"

/-- `DownloadTracker.backup_to_disk` (trackingfileHandlers.py lines 59-93):
with an empty queue the backing file, if any and if on disk, is unlinked;
otherwise the dumps of the whole queue are written to the save file, deriving
its name from the first song when none was set. -/
def DownloadTracker.backup_to_disk (tr : DownloadTracker) (fs : FS) : DownloadTracker × FS :=
  match tr.song_list with
  | [] =>
    match tr.save_file with
    | some p => if fs.isFile p then (tr, fs.eraseFile p) else (tr, fs)
    | none => (tr, fs)
  | s0 :: rest =>
    let songDataDumps := (s0 :: rest).map SongObject.data_dump
    let save := match tr.save_file with
      | some p => p
      | none => trackingFileName s0.song_name
    ({ tr with save_file := some save }, fs.write save (.tracking songDataDumps))

/-- Python `list.remove`: drop the first element equal (here: dump-equal) to
the argument. -/
def pyListRemoveFirst : List SongObject → SongObject → List SongObject
  | [], _ => []
  | a :: rest, x => if songEq a x then rest else a :: pyListRemoveFirst rest x

/-- The removal step of `notify_download_completion` (trackingfileHandlers.py
lines 104-105): drop the song when present, membership and removal both via
`SongObject.__eq__`. -/
def DownloadTracker.removeSong (tr : DownloadTracker) (song_object : SongObject) :
    DownloadTracker :=
  if tr.song_list.any (fun x => songEq x song_object)
  then { tr with song_list := pyListRemoveFirst tr.song_list song_object }
  else tr

/-- `DownloadTracker.notify_download_completion` (trackingfileHandlers.py
lines 95-107): remove the song from the queue when present, then rewrite the
snapshot. -/
def DownloadTracker.notify_download_completion (tr : DownloadTracker) (song_object : SongObject)
    (fs : FS) : DownloadTracker × FS :=
  (tr.removeSong song_object).backup_to_disk fs

/-- `DownloadTracker.load_song_list` (trackingfileHandlers.py lines 38-49). -/
def DownloadTracker.load_song_list (tr : DownloadTracker) (song_list : List SongObject)
    (fs : FS) : DownloadTracker × FS :=
  DownloadTracker.backup_to_disk { tr with song_list := song_list } fs

/-- `DownloadTracker.clear` (trackingfileHandlers.py lines 109-111). -/
def DownloadTracker.clear (_tr : DownloadTracker) : DownloadTracker :=
  { song_list := [], save_file := none }

theorem pyListRemoveFirst_of_not_any (l : List SongObject) (x : SongObject)
    (h : l.any (fun a => songEq a x) = false) : pyListRemoveFirst l x = l := by
  induction l with
  | nil => rfl
  | cons a rest ih =>
    simp only [List.any_cons, Bool.or_eq_false_iff] at h
    simp [pyListRemoveFirst, h.1, ih h.2]

theorem removeSong_song_list (tr : DownloadTracker) (s : SongObject) :
    (tr.removeSong s).song_list = pyListRemoveFirst tr.song_list s := by
  unfold DownloadTracker.removeSong
  cases hany : tr.song_list.any (fun x => songEq x s) with
  | true => simp [hany]
  | false => simp [hany, pyListRemoveFirst_of_not_any tr.song_list s hany]

theorem backup_song_list_eq (tr : DownloadTracker) (fs : FS) :
    (tr.backup_to_disk fs).1.song_list = tr.song_list := by
  obtain ⟨sl, sf⟩ := tr
  cases sl with
  | nil =>
    cases sf with
    | none => rfl
    | some p =>
      simp only [DownloadTracker.backup_to_disk]
      split <;> rfl
  | cons s0 rest =>
    cases sf <;> rfl

theorem backup_writes_dumps (tr : DownloadTracker) (fs : FS) (h : tr.song_list ≠ []) :
    ∃ p, (tr.backup_to_disk fs).1.save_file = some p ∧
      (tr.backup_to_disk fs).2.lookup p
        = some (FileContent.tracking (tr.song_list.map SongObject.data_dump)) := by
  obtain ⟨sl, sf⟩ := tr
  cases sl with
  | nil => exact absurd rfl h
  | cons s0 rest =>
    cases sf with
    | none => exact ⟨trackingFileName s0.song_name, rfl, FS.lookup_write_self _ _ _⟩
    | some p => exact ⟨p, rfl, FS.lookup_write_self _ _ _⟩

theorem backup_empty_no_file (tr : DownloadTracker) (fs : FS) (h : tr.song_list = [])
    (p : FPath) (hp : (tr.backup_to_disk fs).1.save_file = some p) :
    (tr.backup_to_disk fs).2.lookup p = none := by
  obtain ⟨sl, sf⟩ := tr
  cases sl with
  | cons a b => simp at h
  | nil =>
    cases sf with
    | none => simp [DownloadTracker.backup_to_disk] at hp
    | some q =>
      cases hq : fs.isFile q with
      | true =>
        simp only [DownloadTracker.backup_to_disk, hq] at hp ⊢
        simp at hp
        subst hp
        exact FS.lookup_erase_self _ _
      | false =>
        simp only [DownloadTracker.backup_to_disk, hq] at hp ⊢
        simp at hp
        subst hp
        have hnone : fs.lookup q = none := by
          cases hl : fs.lookup q with
          | none => rfl
          | some c => rw [FS.isFile, hl] at hq; simp at hq
        simp [hnone]

/-- All file-map changes made by `backup_to_disk` are confined to the backing
save file of the resulting tracker state. -/
theorem backup_changes_only_save (tr : DownloadTracker) (fs : FS) (q : FPath)
    (h : ∀ p, (tr.backup_to_disk fs).1.save_file = some p → q ≠ p) :
    (tr.backup_to_disk fs).2.lookup q = fs.lookup q := by
  obtain ⟨sl, sf⟩ := tr
  cases sl with
  | nil =>
    cases sf with
    | none => rfl
    | some p =>
      cases hq : fs.isFile p with
      | true =>
        simp only [DownloadTracker.backup_to_disk, hq] at h ⊢
        simp only [if_true] at h ⊢
        exact FS.lookup_erase_ne fs p q (h p rfl)
      | false =>
        simp only [DownloadTracker.backup_to_disk, hq]
        simp
  | cons s0 rest =>
    cases sf with
    | none =>
      exact FS.lookup_write_ne _ _ _ _ (h (trackingFileName s0.song_name) rfl)
    | some p =>
      exact FS.lookup_write_ne _ _ _ _ (h p rfl)

/-- All file-map changes made by `notify_download_completion` are confined to
the backing save file of the resulting tracker state. -/
theorem notify_changes_only_save (tr : DownloadTracker) (s : SongObject) (fs : FS) (q : FPath)
    (h : ∀ p, (tr.notify_download_completion s fs).1.save_file = some p → q ≠ p) :
    (tr.notify_download_completion s fs).2.lookup q = fs.lookup q :=
  backup_changes_only_save (tr.removeSong s) fs q h

/-- Claim C4: `markComplete` removes the item from the in-memory queue by
dump equality (the first matching occurrence, Python `list.remove`), rewrites
the snapshot to hold exactly the dumps of the remaining queue, and — whenever
the queue has become empty — leaves no backing snapshot file on disk. -/
theorem c4_markComplete_contract (tr : DownloadTracker) (s : SongObject) (fs : FS) :
    ((tr.notify_download_completion s fs).1.song_list = pyListRemoveFirst tr.song_list s) ∧
    ((tr.notify_download_completion s fs).1.song_list ≠ [] →
      ∃ p, (tr.notify_download_completion s fs).1.save_file = some p ∧
        (tr.notify_download_completion s fs).2.lookup p
          = some (FileContent.tracking
              ((tr.notify_download_completion s fs).1.song_list.map SongObject.data_dump))) ∧
    ((tr.notify_download_completion s fs).1.song_list = [] →
      ∀ p, (tr.notify_download_completion s fs).1.save_file = some p →
        (tr.notify_download_completion s fs).2.lookup p = none) := by
  have hnb : tr.notify_download_completion s fs = (tr.removeSong s).backup_to_disk fs := rfl
  refine ⟨?_, ?_, ?_⟩
  · rw [hnb, backup_song_list_eq, removeSong_song_list]
  · intro hne
    rw [hnb, backup_song_list_eq] at hne ⊢
    exact backup_writes_dumps _ _ hne
  · intro hemp
    rw [hnb, backup_song_list_eq] at hemp
    rw [hnb]
    exact backup_empty_no_file _ _ hemp

/-- Concrete instances for the C4 witness. -/
def c4song : SongObject :=
  { rawTrackMeta := { name := "Queued Song", artists := ["Queue Artist"] }
    rawAlbumMeta := { genres := [] }
    rawArtistMeta := { genres := [] }
    youtubeLink := "https://youtu.be/q"
    lyrics := none }

def c4tracker : DownloadTracker :=
  { song_list := [c4song], save_file := some "queue.spotdlTrackingFile" }

def c4fs : FS :=
  { files := [("queue.spotdlTrackingFile", FileContent.tracking [c4song.data_dump])]
    dirs := [] }

/-- Witness for C4: marking the only queued song complete empties the queue
and deletes the backing snapshot file. -/
theorem c4_markComplete_contract_witness :
    (c4tracker.notify_download_completion c4song c4fs).2.lookup
        "queue.spotdlTrackingFile" = none :=
  (c4_markComplete_contract c4tracker c4song c4fs).2.2 (by decide)
    "queue.spotdlTrackingFile" (by decide)

/-! ## The per-item pipeline (`spotdl/download/downloader.py`)

External collaborators — the YouTube stream query, the pytube download, the
ffmpeg process, the tag writer — are oracle parameters: a `Bool` for each
success/failure outcome the code branches on and opaque content tokens for the
bytes they produce.  Display notifications become an ordered event list. -/

inductive Event
  | skip
  | fetch_done
  | convert_done
  | complete
  | error_reported
  deriving DecidableEq, Repr

structure Oracles where
  /-- Truthiness of `youtube_handler.streams...last()` (downloader.py 251-256). -/
  streamAvailable : Bool
  /-- Whether `track_audio_stream.download` returns rather than raises. -/
  downloadOk : Bool
  /-- The extension pytube appends to the requested temp filename (`.mp4`/`.webm`). -/
  downloadedExt : String
  downloadToken : Nat
  /-- Whether the ffmpeg process exits with code 0 (ffmpeg.py line 109). -/
  ffmpegOk : Bool
  /-- Whether a (partial) output file exists after a failed ffmpeg run. -/
  ffmpegPartial : Bool
  convertToken : Nat
  tagToken : Nat
  deriving DecidableEq, Repr

structure RunResult where
  fs : FS
  tracker : DownloadTracker
  events : List Event
  deriving DecidableEq, Repr

/-- The glob pattern `{converted_file_name}.*` evaluated in the temp folder
(downloader.py line 344): the path lies in `dir`, its file name starts with
`base` followed by a dot, and the rest has no further path separator. -/
def globTempMatch (dir base p : FPath) : Bool :=
  startsL (dir ++ "/" ++ base ++ ".").toList p.toList &&
    !((p.toList.drop (dir ++ "/" ++ base ++ ".").toList.length).contains '/')

def FS.eraseGlob (fs : FS) (dir base : FPath) : FS :=
  { fs with files := keepF (fun q => !(globTempMatch dir base q)) fs.files }

theorem FS.lookup_eraseGlob_match (fs : FS) (dir base p : FPath)
    (h : globTempMatch dir base p = true) : (fs.eraseGlob dir base).lookup p = none := by
  simp [FS.eraseGlob, FS.lookup, lookupF_keepF, h]

theorem FS.lookup_eraseGlob_nomatch (fs : FS) (dir base p : FPath)
    (h : globTempMatch dir base p = false) : (fs.eraseGlob dir base).lookup p = fs.lookup p := by
  simp [FS.eraseGlob, FS.lookup, lookupF_keepF, h]

/-- `DownloadManager._perform_audio_download` (downloader.py lines 326-347):
on success pytube saves `Temp/{name}.{ext}` and the path is returned; when the
download raises, every existing temp file matching `{name}.*` is unlinked and
`None` is returned. -/
def _perform_audio_download (orc : Oracles) (converted_file_name : FPath)
    (temp_folder : FPath) (fs : FS) : Option FPath × FS :=
  if orc.downloadOk then
    let p := temp_folder ++ "/" ++ converted_file_name ++ "." ++ orc.downloadedExt
    (some p, fs.write p (FileContent.audio orc.downloadToken))
  else
    (none, fs.eraseGlob temp_folder converted_file_name)

/-- The codec-argument table of `ffmpeg.convert` (ffmpeg.py lines 66-72);
`none` is the `KeyError` raised by `formats[output_format]` on line 77. -/
def formatsTable (f : String) : Option (List String) :=
  if f = "mp3" then some ["-codec:a", "libmp3lame"]
  else if f = "flac" then some ["-codec:a", "flac"]
  else if f = "ogg" then some ["-codec:a", "libvorbis"]
  else if f = "opus" then some ["-codec:a", "libopus"]
  else if f = "m4a" then some ["-codec:a", "aac", "-vn"]
  else none

/-- `ffmpeg.convert` (ffmpeg.py lines 55-122): look the format up in the table
(raising `KeyError` on an unrecognized format, or defaulting to mp3 on
`None`), run the external process, and report its exit status; the process
writes the output file on success and may leave a partial file on failure. -/
def ffmpegConvert (orc : Oracles) (downloaded_file_path converted_file_path : FPath)
    (output_format : Option String) (fs : FS) : Except PyExn (Bool × FS) :=
  match (match output_format with
         | none => formatsTable "mp3"
         | some f => formatsTable f) with
  | none => Except.error PyExn.keyError
  | some _args =>
    if orc.ffmpegOk then
      Except.ok (true, fs.write converted_file_path (FileContent.audio orc.convertToken))
    else
      Except.ok (false,
        if orc.ffmpegPartial then
          fs.write converted_file_path (FileContent.audio orc.convertToken)
        else fs)

/-- Modelled from the spec: `set_id3_data` (the TagWriter collaborator,
imported from `spotdl.download` in downloader.py line 11 but not under
`src/`) embeds metadata into the finished artifact at the given path,
best-effort, invoked only after a successful transcode. -/
def set_id3_data (fs : FS) (converted_file_path : FPath) (tok : Nat) : FS :=
  fs.write converted_file_path (FileContent.audio tok)

/-- The tail of `download_song` from the ffmpeg call on (downloader.py lines
276-302): convert; notify conversion completion (line 283, emitted whether or
not the transcode succeeded); on failure unlink the would-be artifact, on
success tag it; then notify download completion, remove the song from the
tracker, and delete the temp file.  Any raise is caught by the wrapper's
`except` (lines 304-309), which reports the error and leaves the tracker
untouched. -/
def afterFetch (fmt : String) (orc : Oracles) (song : SongObject) (tr : DownloadTracker)
    (fs : FS) (downloaded_file_path converted_file_path : FPath) : RunResult :=
  match ffmpegConvert orc downloaded_file_path converted_file_path (some fmt) fs with
  | Except.error _ => { fs := fs, tracker := tr, events := [Event.fetch_done, Event.error_reported] }
  | Except.ok (ffmpeg_success, fs2) =>
    match (if ffmpeg_success = false then fs2.unlink converted_file_path
           else Except.ok (set_id3_data fs2 converted_file_path orc.tagToken)) with
    | Except.error _ =>
      { fs := fs2, tracker := tr
        events := [Event.fetch_done, Event.convert_done, Event.error_reported] }
    | Except.ok fs3 =>
      let pr := tr.notify_download_completion song fs3
      let fs4 := if pr.2.isFile downloaded_file_path then pr.2.eraseFile downloaded_file_path
        else pr.2
      { fs := fs4, tracker := pr.1
        events := [Event.fetch_done, Event.convert_done, Event.complete] }

/-- `DownloadManager.download_song` (downloader.py lines 199-309): ensure the
temp folder exists, compute the final artifact path, skip (and mark complete)
when it already exists, otherwise fetch into the temp folder — returning
silently when the stream is missing or the download failed — and hand over to
the conversion tail. -/
def download_song (fmt : String) (orc : Oracles) (song : SongObject) (tr : DownloadTracker)
    (fs0 : FS) : RunResult :=
  let fs := fs0.mkdirIfMissing "Temp"
  let converted_file_path := _get_converted_file_path song (some fmt)
  if fs.isFile converted_file_path then
    { fs := (tr.notify_download_completion song fs).2
      tracker := (tr.notify_download_completion song fs).1
      events := [Event.skip] }
  else if orc.streamAvailable then
    match _perform_audio_download orc converted_file_path "Temp" fs with
    | (none, fs1) => { fs := fs1, tracker := tr, events := [] }
    | (some downloaded_file_path, fs1) =>
      afterFetch fmt orc song tr fs1 downloaded_file_path converted_file_path
  else
    { fs := fs, tracker := tr, events := [] }

theorem FS.isFile_mkdir (fs : FS) (d p : FPath) :
    (fs.mkdirIfMissing d).isFile p = fs.isFile p := rfl

/-- Claim C3: when the computed final artifact path already exists, the
pipeline performs no fetch, conversion or tagging, emits exactly the skip
notification, marks the item complete in the tracking store, and changes no
file entry other than the tracker's backing snapshot — in particular the
existing artifact itself is untouched. -/
theorem c3_skip_idempotent (song : SongObject) (fmt : String) (orc : Oracles)
    (tr : DownloadTracker) (fs : FS)
    (hfile : fs.isFile (_get_converted_file_path song (some fmt)) = true) :
    (download_song fmt orc song tr fs).events = [Event.skip] ∧
    (download_song fmt orc song tr fs).tracker
      = (tr.notify_download_completion song (fs.mkdirIfMissing "Temp")).1 ∧
    (download_song fmt orc song tr fs).fs
      = (tr.notify_download_completion song (fs.mkdirIfMissing "Temp")).2 ∧
    (∀ q : FPath,
      (∀ pth, (download_song fmt orc song tr fs).tracker.save_file = some pth → q ≠ pth) →
      (download_song fmt orc song tr fs).fs.lookup q = fs.lookup q) ∧
    ((∀ pth, (download_song fmt orc song tr fs).tracker.save_file = some pth →
        _get_converted_file_path song (some fmt) ≠ pth) →
      (download_song fmt orc song tr fs).fs.lookup (_get_converted_file_path song (some fmt))
        = fs.lookup (_get_converted_file_path song (some fmt))) := by
  have hrun : download_song fmt orc song tr fs
      = { fs := (tr.notify_download_completion song (fs.mkdirIfMissing "Temp")).2
          tracker := (tr.notify_download_completion song (fs.mkdirIfMissing "Temp")).1
          events := [Event.skip] } := by
    unfold download_song
    dsimp only
    rw [FS.isFile_mkdir, hfile]
    simp
  refine ⟨by rw [hrun], by rw [hrun], by rw [hrun], ?_, ?_⟩
  · intro q hq
    rw [hrun] at hq ⊢
    have := notify_changes_only_save tr song (fs.mkdirIfMissing "Temp") q hq
    rw [this, FS.lookup_mkdir]
  · intro hq
    rw [hrun] at hq ⊢
    have := notify_changes_only_save tr song (fs.mkdirIfMissing "Temp")
      (_get_converted_file_path song (some fmt)) hq
    rw [this, FS.lookup_mkdir]

/-- Concrete instances for the C3 witness: the artifact is already on disk. -/
def c3song : SongObject :=
  { rawTrackMeta := { name := "Existing Song", artists := ["Prior Artist"] }
    rawAlbumMeta := { genres := [] }
    rawArtistMeta := { genres := [] }
    youtubeLink := "https://youtu.be/e"
    lyrics := none }

def c3fs : FS :=
  { files := [("Prior Artist - Existing Song.mp3", FileContent.audio 7)]
    dirs := [] }

def c3tracker : DownloadTracker :=
  { song_list := [c3song], save_file := some "run.spotdlTrackingFile" }

/-- Witness for C3 at a concrete populated output directory. -/
theorem c3_skip_idempotent_witness :
    (download_song "mp3" (Oracles.mk true true "mp4" 0 true false 1 2) c3song c3tracker
        c3fs).events = [Event.skip] :=
  (c3_skip_idempotent c3song "mp3" (Oracles.mk true true "mp4" 0 true false 1 2) c3tracker
    c3fs (by decide)).1

/-- Claim C5: when the audio fetch raises, every temp file matching the
target base name is deleted, every other file entry is untouched, no final
artifact is produced, and the tracker — queue and snapshot alike — is left
exactly as it was, so the item remains resumable. -/
theorem c5_fetch_failure_atomic (song : SongObject) (fmt : String) (orc : Oracles)
    (tr : DownloadTracker) (fs : FS)
    (hstream : orc.streamAvailable = true)
    (hdl : orc.downloadOk = false)
    (hnofile : fs.isFile (_get_converted_file_path song (some fmt)) = false) :
    (download_song fmt orc song tr fs).tracker = tr ∧
    (download_song fmt orc song tr fs).events = [] ∧
    (∀ p : FPath, globTempMatch "Temp" (_get_converted_file_path song (some fmt)) p = true →
      (download_song fmt orc song tr fs).fs.lookup p = none) ∧
    (∀ p : FPath, globTempMatch "Temp" (_get_converted_file_path song (some fmt)) p = false →
      (download_song fmt orc song tr fs).fs.lookup p = fs.lookup p) ∧
    (download_song fmt orc song tr fs).fs.isFile (_get_converted_file_path song (some fmt))
      = false := by
  have hrun : download_song fmt orc song tr fs
      = { fs := (fs.mkdirIfMissing "Temp").eraseGlob "Temp"
            (_get_converted_file_path song (some fmt))
          tracker := tr
          events := [] } := by
    unfold download_song
    dsimp only
    rw [FS.isFile_mkdir, hnofile]
    simp [hstream, _perform_audio_download, hdl]
  refine ⟨by rw [hrun], by rw [hrun], ?_, ?_, ?_⟩
  · intro p hp
    rw [hrun]
    exact FS.lookup_eraseGlob_match _ _ _ _ hp
  · intro p hp
    rw [hrun]
    have := FS.lookup_eraseGlob_nomatch (fs.mkdirIfMissing "Temp") "Temp"
      (_get_converted_file_path song (some fmt)) p hp
    rw [this, FS.lookup_mkdir]
  · cases hg : globTempMatch "Temp" (_get_converted_file_path song (some fmt))
        (_get_converted_file_path song (some fmt)) with
    | true =>
      rw [hrun]
      simp only [FS.isFile]
      rw [FS.lookup_eraseGlob_match _ _ _ _ hg]
      rfl
    | false =>
      rw [hrun]
      simp only [FS.isFile]
      rw [FS.lookup_eraseGlob_nomatch _ _ _ _ hg, FS.lookup_mkdir]
      rw [FS.isFile] at hnofile
      exact hnofile

/-- Concrete instances for the C5 witness: the tracker still holds the song,
a partial temp file from the failed attempt is on disk. -/
def c5song : SongObject :=
  { rawTrackMeta := { name := "Flaky Song", artists := ["Net Artist"] }
    rawAlbumMeta := { genres := [] }
    rawArtistMeta := { genres := [] }
    youtubeLink := "https://youtu.be/f"
    lyrics := none }

def c5tracker : DownloadTracker :=
  { song_list := [c5song], save_file := some "flaky.spotdlTrackingFile" }

def c5fs : FS :=
  { files := [("Temp/Net Artist - Flaky Song.mp3.mp4", FileContent.audio 9),
              ("flaky.spotdlTrackingFile", FileContent.tracking [c5song.data_dump])]
    dirs := ["Temp"] }

/-- Witness for C5 at a concrete failed fetch. -/
theorem c5_fetch_failure_atomic_witness :
    (download_song "mp3" (Oracles.mk true false "mp4" 0 true false 1 2) c5song c5tracker
        c5fs).tracker = c5tracker :=
  (c5_fetch_failure_atomic c5song "mp3" (Oracles.mk true false "mp4" 0 true false 1 2)
    c5tracker c5fs (by decide) (by decide) (by decide)).1

/-- Concrete instances for C1: the transcoder fails and leaves a partial
output file; the tracker holds exactly this song, snapshot on disk. -/
def c1song : SongObject :=
  { rawTrackMeta := { name := "Broken Convert", artists := ["Codec Artist"] }
    rawAlbumMeta := { genres := [] }
    rawArtistMeta := { genres := [] }
    youtubeLink := "https://youtu.be/c"
    lyrics := none }

def c1orc : Oracles :=
  { streamAvailable := true
    downloadOk := true
    downloadedExt := "mp4"
    downloadToken := 1
    ffmpegOk := false
    ffmpegPartial := true
    convertToken := 2
    tagToken := 3 }

def c1tracker : DownloadTracker :=
  { song_list := [c1song], save_file := some "broken.spotdlTrackingFile" }

def c1fs : FS :=
  { files := [("broken.spotdlTrackingFile", FileContent.tracking [c1song.data_dump])]
    dirs := [] }

/-- Claim C1: on transcoder failure the would-be final artifact is claimed to
be deleted (which holds) *and* the item is claimed to stay in the tracking
queue and snapshot (which fails).  After a failed conversion that left a
partial output file, `download_song` unlinks the artifact but then falls
through to the completion block (downloader.py lines 293-298), calling
`DownloadTracker.notify_download_completion` on the failed song: the queue is
emptied and the snapshot file is deleted, so nothing remains to resume, and
the run reports completion rather than an error. -/
theorem c1_convert_failure_marks_complete :
    (download_song "mp3" c1orc c1song c1tracker c1fs).fs.lookup
        (_get_converted_file_path c1song (some "mp3")) = none ∧
    (download_song "mp3" c1orc c1song c1tracker c1fs).tracker.song_list = [] ∧
    (download_song "mp3" c1orc c1song c1tracker c1fs).fs.lookup
        "broken.spotdlTrackingFile" = none ∧
    (download_song "mp3" c1orc c1song c1tracker c1fs).events
      = [Event.fetch_done, Event.convert_done, Event.complete] := by
  decide

/-! ## Batch runs and the configuration boundary (`downloader.py`, `__main__.py`) -/

structure BatchResult where
  tracker : DownloadTracker
  fs : FS
  eventsLog : List (List Event)
  deriving DecidableEq, Repr

/-- Sequential model of `asyncio.gather` over `_pool_download` tasks
(downloader.py lines 185-197): each pipeline runs `download_song`; items only
interact through the tracker and the file system, threaded here in submission
order. -/
def run_pipelines (fmt : String) (orc : Oracles) :
    List SongObject → DownloadTracker → FS → BatchResult
  | [], tr, fs => { tracker := tr, fs := fs, eventsLog := [] }
  | song :: rest, tr, fs =>
    let r := download_song fmt orc song tr fs
    let b := run_pipelines fmt orc rest r.tracker r.fs
    { tracker := b.tracker, fs := b.fs, eventsLog := r.events :: b.eventsLog }

/-- `DownloadManager.download_multiple_songs` (downloader.py lines 151-165):
clear the tracker, load (and persist) the song list, then run all pipelines. -/
def download_multiple_songs (fmt : String) (orc : Oracles) (songs : List SongObject)
    (tr : DownloadTracker) (fs : FS) : BatchResult :=
  let loaded := (tr.clear).load_song_list songs fs
  run_pipelines fmt orc songs loaded.1 loaded.2

inductive ConfigError
  | unrecognized_format
  deriving DecidableEq, Repr

/-- The output formats `ffmpeg.convert` recognizes (the keys of its table,
ffmpeg.py lines 66-72), which the spec names as the recognized set. -/
def recognizedFormats : List String := ["mp3", "flac", "ogg", "opus", "m4a"]

/-- Modelled from the spec: the console entry point (`spotdl.console`,
imported by `__main__.py` but not under `src/`) validates the requested
output format against the recognized set {mp3, flac, ogg, opus, m4a} before
constructing the `DownloadManager` or starting any download; an unrecognized
format aborts the whole run as a configuration error, so no per-item pipeline
ever starts. -/
def console_entry_point (fmt : String) (orc : Oracles) (songs : List SongObject)
    (tr : DownloadTracker) (fs : FS) : Except ConfigError BatchResult :=
  if recognizedFormats.contains fmt then
    Except.ok (download_multiple_songs fmt orc songs tr fs)
  else
    Except.error ConfigError.unrecognized_format

/-- Claim C6: a batch run configured with a target format outside
{mp3, flac, ogg, opus, m4a} aborts with a configuration error before any
per-item pipeline starts (the run result is the error, no `BatchResult` is
produced); and for every recognized format the transcoder's table lookup
succeeds, so a validated batch can never surface the unrecognized-format
`KeyError` as a caught per-item failure. -/
theorem c6_config_error_before_batch (fmt : String) (orc : Oracles)
    (songs : List SongObject) (tr : DownloadTracker) (fs : FS)
    (h : recognizedFormats.contains fmt = false) :
    console_entry_point fmt orc songs tr fs = Except.error ConfigError.unrecognized_format ∧
    formatsTable fmt = none ∧
    (∀ g, recognizedFormats.contains g = true → (formatsTable g).isSome = true) := by
  refine ⟨?_, ?_, ?_⟩
  · unfold console_entry_point
    rw [h]
    simp
  · simp only [recognizedFormats, List.contains_cons] at h
    simp only [Bool.or_eq_false_iff] at h
    unfold formatsTable
    have h1 : fmt ≠ "mp3" := by
      intro hh; subst hh; simp at h
    have h2 : fmt ≠ "flac" := by
      intro hh; subst hh; simp at h
    have h3 : fmt ≠ "ogg" := by
      intro hh; subst hh; simp at h
    have h4 : fmt ≠ "opus" := by
      intro hh; subst hh; simp at h
    have h5 : fmt ≠ "m4a" := by
      intro hh; subst hh; simp at h
    simp [h1, h2, h3, h4, h5]
  · intro g hg
    simp only [recognizedFormats, List.contains_cons, List.contains_nil,
      Bool.or_eq_true, beq_iff_eq] at hg
    rcases hg with hg | hg | hg | hg | hg | hg
    · subst hg; rfl
    · subst hg; rfl
    · subst hg; rfl
    · subst hg; rfl
    · subst hg; rfl
    · simp at hg

/-- Witness for C6 at the concrete unrecognized format `wav`. -/
theorem c6_config_error_before_batch_witness :
    console_entry_point "wav" (Oracles.mk true true "mp4" 0 true false 1 2) []
        (DownloadTracker.mk [] none) (FS.mk [] [])
      = Except.error ConfigError.unrecognized_format :=
  (c6_config_error_before_batch "wav" (Oracles.mk true true "mp4" 0 true false 1 2) []
    (DownloadTracker.mk [] none) (FS.mk [] []) (by decide)).1

/-! ## Duration parsing (`spotdl/providers/provider_utils.py`, `_parse_duration`) -/

/-- Python `str.isspace`-style whitespace stripped by `int()` (ASCII range;
the claims involve no exotic whitespace). -/
def pyIsSpace (c : Char) : Bool :=
  c == ' ' || c == '\t' || c == '\n' || c == '\r' || c == '\x0b' || c == '\x0c'

def stripL (cs : List Char) : List Char :=
  ((cs.dropWhile pyIsSpace).reverse.dropWhile pyIsSpace).reverse

/-- Digit-run grammar accepted by Python `int()` after the first digit:
further digits with single grouping underscores strictly between digits. -/
def pyDigitsTail : List Char → Bool
  | [] => true
  | c :: rest =>
    if c = '_' then
      match rest with
      | [] => false
      | c2 :: rest2 => c2.isDigit && pyDigitsTail rest2
    else c.isDigit && pyDigitsTail rest

def pyDigitsCore : List Char → Bool
  | [] => false
  | c :: rest => c.isDigit && pyDigitsTail rest

/-- Numeric value of a digit run (grouping underscores are skipped). -/
def digitsValue (cs : List Char) : Nat :=
  (cs.filter (fun c => !(c == '_'))).foldl (fun a c => 10 * a + (c.toNat - 48)) 0

/-- Python `int(str)` (ValueError as `none`): strip whitespace, optional sign,
then a digit run; non-ASCII digits are not modelled (no claim involves
them). -/
def pyIntQ (cs : List Char) : Option Int :=
  match stripL cs with
  | [] => none
  | c :: rest =>
    if c = '+' then
      if pyDigitsCore rest then some (digitsValue rest : Int) else none
    else if c = '-' then
      if pyDigitsCore rest then some (-(digitsValue rest : Int)) else none
    else if pyDigitsCore (c :: rest) then some (digitsValue (c :: rest) : Int) else none

/-- Python `str.split(":")`. -/
def splitColon : List Char → List (List Char)
  | [] => [[]]
  | c :: rest =>
    if c = ':' then [] :: splitColon rest
    else
      match splitColon rest with
      | [] => [[c]]
      | g :: gs => (c :: g) :: gs

/-- `_parse_duration` (provider_utils.py lines 37-52): zip `[1, 60, 3600]`
against the reversed colon-split pieces (Python `zip` truncates to the
shorter list), sum `multiplier * int(piece)`; any failing `int()` (or a
`None` argument, whose `.split` raises `AttributeError`) lands in the
`except` and yields zero.  The Python result is a float of this exact
integer value (these magnitudes are exactly representable). -/
def _parse_duration (duration : Option String) : Int :=
  match duration with
  | none => 0
  | some s =>
    let parts := (splitColon s.toList).reverse
    let mapped_increments := List.zip ([1, 60, 3600] : List Int) parts
    if mapped_increments.all (fun pr => (pyIntQ pr.2).isSome) then
      mapped_increments.foldl (fun seconds pr => seconds + pr.1 * ((pyIntQ pr.2).getD 0)) 0
    else 0

theorem digit_not_space (c : Char) (h : c.isDigit = true) : pyIsSpace c = false := by
  cases hsp : pyIsSpace c with
  | false => rfl
  | true =>
    unfold pyIsSpace at hsp
    simp only [Bool.or_eq_true, beq_iff_eq] at hsp
    rcases hsp with ((((rfl | rfl) | rfl) | rfl) | rfl) | rfl <;>
      exact absurd h (by decide)

theorem dropWhile_of_none (p : Char → Bool) (l : List Char) (h : ∀ c ∈ l, p c = false) :
    l.dropWhile p = l := by
  cases l with
  | nil => rfl
  | cons a t =>
    rw [List.dropWhile_cons]
    simp [h a (List.mem_cons_self _ _)]

theorem stripL_of_digits (l : List Char) (h : ∀ c ∈ l, c.isDigit = true) : stripL l = l := by
  unfold stripL
  rw [dropWhile_of_none _ _ (fun c hc => digit_not_space c (h c hc)),
    dropWhile_of_none _ _ (fun c hc => digit_not_space c (h c (List.mem_reverse.mp hc))),
    List.reverse_reverse]

theorem pyDigitsTail_of_digits (l : List Char) (h : ∀ c ∈ l, c.isDigit = true) :
    pyDigitsTail l = true := by
  induction l with
  | nil => rfl
  | cons c rest ih =>
    have hc : c.isDigit = true := h c (List.mem_cons_self _ _)
    have hne : ¬(c = '_') := by
      intro hh; subst hh; exact absurd hc (by decide)
    unfold pyDigitsTail
    rw [if_neg hne, hc, ih (fun x hx => h x (List.mem_cons_of_mem _ hx))]
    rfl

theorem pyDigitsCore_of_digits (l : List Char) (hne : l ≠ []) (h : ∀ c ∈ l, c.isDigit = true) :
    pyDigitsCore l = true := by
  cases l with
  | nil => exact absurd rfl hne
  | cons c rest =>
    simp only [pyDigitsCore]
    rw [h c (List.mem_cons_self _ _),
      pyDigitsTail_of_digits rest (fun x hx => h x (List.mem_cons_of_mem _ hx))]
    rfl

theorem pyIntQ_digits (l : List Char) (hne : l ≠ []) (h : ∀ c ∈ l, c.isDigit = true) :
    pyIntQ l = some (digitsValue l : Int) := by
  cases l with
  | nil => exact absurd rfl hne
  | cons c rest =>
    have hc : c.isDigit = true := h c (List.mem_cons_self _ _)
    have hplus : ¬(c = '+') := by intro hh; subst hh; exact absurd hc (by decide)
    have hminus : ¬(c = '-') := by intro hh; subst hh; exact absurd hc (by decide)
    unfold pyIntQ
    rw [stripL_of_digits _ h]
    dsimp only
    rw [if_neg hplus, if_neg hminus,
      if_pos (pyDigitsCore_of_digits _ (by simp) h)]

theorem digits_no_colon (l : List Char) (h : ∀ c ∈ l, c.isDigit = true) : ':' ∉ l :=
  fun hmem => absurd (h ':' hmem) (by decide)

theorem splitColon_no_colon (l : List Char) (h : ':' ∉ l) : splitColon l = [l] := by
  induction l with
  | nil => rfl
  | cons c rest ih =>
    have hc : ¬(c = ':') := fun hh => h (hh ▸ List.mem_cons_self _ _)
    have hr : ':' ∉ rest := fun hh => h (List.mem_cons_of_mem _ hh)
    unfold splitColon
    rw [if_neg hc, ih hr]

theorem splitColon_append (a b : List Char) (h : ':' ∉ a) :
    splitColon (a ++ ':' :: b) = a :: splitColon b := by
  induction a with
  | nil => simp [splitColon]
  | cons c rest ih =>
    have hc : ¬(c = ':') := fun hh => h (hh ▸ List.mem_cons_self _ _)
    have hr : ':' ∉ rest := fun hh => h (List.mem_cons_of_mem _ hh)
    have hstep : splitColon (c :: (rest ++ ':' :: b))
        = match splitColon (rest ++ ':' :: b) with
          | [] => [[c]]
          | g :: gs => (c :: g) :: gs := by
      conv_lhs => unfold splitColon
      rw [if_neg hc]
    rw [List.cons_append, hstep, ih hr]

/-- Claim C7: the duration conversion maps `HH:MM:SS` to
`3600*HH + 60*MM + SS`, `MM:SS` to `60*MM + SS`, and a bare-seconds string to
its value (each an exactly-representable integer-valued float in Python), and
yields zero rather than raising on unparseable input such as `"abc"` or
`None`. -/
theorem c7_parse_duration :
    (∀ hh mm ss : List Char, hh ≠ [] → mm ≠ [] → ss ≠ [] →
      (∀ c ∈ hh, c.isDigit = true) → (∀ c ∈ mm, c.isDigit = true) →
      (∀ c ∈ ss, c.isDigit = true) →
      _parse_duration (some (String.mk (hh ++ ':' :: (mm ++ ':' :: ss))))
        = 3600 * (digitsValue hh : Int) + 60 * (digitsValue mm : Int)
            + (digitsValue ss : Int)) ∧
    (∀ mm ss : List Char, mm ≠ [] → ss ≠ [] →
      (∀ c ∈ mm, c.isDigit = true) → (∀ c ∈ ss, c.isDigit = true) →
      _parse_duration (some (String.mk (mm ++ ':' :: ss)))
        = 60 * (digitsValue mm : Int) + (digitsValue ss : Int)) ∧
    (∀ s : List Char, s ≠ [] → (∀ c ∈ s, c.isDigit = true) →
      _parse_duration (some (String.mk s)) = (digitsValue s : Int)) ∧
    _parse_duration (some "1:02:03") = 3723 ∧
    _parse_duration (some "02:03") = 123 ∧
    _parse_duration (some "abc") = 0 ∧
    _parse_duration none = 0 := by
  refine ⟨?_, ?_, ?_, by decide, by decide, by decide, rfl⟩
  · intro hh mm ss h1 h2 h3 hd1 hd2 hd3
    unfold _parse_duration
    dsimp only
    rw [show (String.mk (hh ++ ':' :: (mm ++ ':' :: ss))).toList
        = hh ++ ':' :: (mm ++ ':' :: ss) from rfl]
    rw [splitColon_append _ _ (digits_no_colon hh hd1),
      splitColon_append _ _ (digits_no_colon mm hd2),
      splitColon_no_colon ss (digits_no_colon ss hd3)]
    simp [pyIntQ_digits hh h1 hd1, pyIntQ_digits mm h2 hd2, pyIntQ_digits ss h3 hd3]
    ring
  · intro mm ss h2 h3 hd2 hd3
    unfold _parse_duration
    dsimp only
    rw [show (String.mk (mm ++ ':' :: ss)).toList = mm ++ ':' :: ss from rfl]
    rw [splitColon_append _ _ (digits_no_colon mm hd2),
      splitColon_no_colon ss (digits_no_colon ss hd3)]
    simp [pyIntQ_digits mm h2 hd2, pyIntQ_digits ss h3 hd3]
    ring
  · intro s h1 hd1
    unfold _parse_duration
    dsimp only
    rw [show (String.mk s).toList = s from rfl]
    rw [splitColon_no_colon s (digits_no_colon s hd1)]
    simp [pyIntQ_digits s h1 hd1]

/-- Witness for C7 at the concrete duration `7:30:09`. -/
theorem c7_parse_duration_witness :
    _parse_duration (some (String.mk (['7'] ++ ':' :: (['3', '0'] ++ ':' :: ['0', '9']))))
      = 3600 * (digitsValue ['7'] : Int) + 60 * (digitsValue ['3', '0'] : Int)
          + (digitsValue ['0', '9'] : Int) :=
  c7_parse_duration.1 ['7'] ['3', '0'] ['0', '9'] (by decide) (by decide) (by decide)
    (by decide) (by decide) (by decide)

/-! ## Fuzzy-match fallback (`provider_utils.py`, `_match_percentage`) -/

/-- Per-character `each_letter.isalnum() or each_letter.isspace()`
(provider_utils.py lines 26 and 32; ASCII-faithful). -/
def pyAlnumSpace (c : Char) : Bool := c.isAlphanum || pyIsSpace c

/-- The filtered string built char-by-char in the `except` branch. -/
def filterAlnum (s : String) : String := String.mk (s.toList.filter pyAlnumSpace)

/-- `_match_percentage` (provider_utils.py lines 4-35), parameterized by the
external `rapidfuzz.fuzz.partial_ratio` routine `pr` (the `score_cutoff`
argument is closed over since both calls pass the same one; `none` models a
raise).  The first call's raise is caught by the bare `except`; the second
call's result — or raise — propagates as is. -/
def _match_percentage {α : Type} (pr : String → String → Option α)
    (str1 str2 : String) : Option α :=
  match pr str1 str2 with
  | some r => some r
  | none => pr (filterAlnum str1) (filterAlnum str2)

theorem filterAlnum_all (s : String) : (filterAlnum s).toList.all pyAlnumSpace = true := by
  rw [show (filterAlnum s).toList = s.toList.filter pyAlnumSpace from rfl,
    List.all_eq_true]
  intro c hc
  simpa using List.of_mem_filter hc

/-- Claim C8: whenever the primary ratio routine succeeds on all
alphanumeric-and-space strings (the premise under which the source's fallback
is written), `_match_percentage` returns a score on every input pair; and
whenever the primary routine raises on the raw strings, the result is exactly
the primary routine's ratio of the two filtered strings — deterministically,
since the whole computation is a pure function of `pr` and the inputs. -/
theorem c8_match_fallback_total {α : Type} (pr : String → String → Option α)
    (str1 str2 : String)
    (htotal : ∀ a b : String, a.toList.all pyAlnumSpace = true →
      b.toList.all pyAlnumSpace = true → (pr a b).isSome = true) :
    (_match_percentage pr str1 str2).isSome = true ∧
    (pr str1 str2 = none →
      _match_percentage pr str1 str2 = pr (filterAlnum str1) (filterAlnum str2)) := by
  constructor
  · unfold _match_percentage
    cases hp : pr str1 str2 with
    | some r => rfl
    | none => exact htotal _ _ (filterAlnum_all str1) (filterAlnum_all str2)
  · intro hnone
    unfold _match_percentage
    rw [hnone]

/-- Witness for C8 with a concrete everywhere-total primary routine. -/
theorem c8_match_fallback_total_witness :
    (_match_percentage (fun _ _ => some (100 : Nat)) "emoji title" "candidate").isSome
      = true :=
  (c8_match_fallback_total (fun _ _ => some (100 : Nat)) "emoji title" "candidate"
    (fun _ _ _ _ => rfl)).1

/-! ## The admission gate (`downloader.py`, `DownloadManager`)

`_pool_download` wraps every pipeline in `async with self.semaphore`
(downloader.py lines 190-197) where `self.semaphore = asyncio.Semaphore(
self.pool_size)` (line 114).  The scheduler is modelled as a transition
system: each task is waiting, active (inside the gate, running its full
`download_song`), or done; acquiring decrements a positive counter, releasing
happens exactly when a task's run ends. -/

def pool_size : Nat := 4

inductive TaskPhase
  | waiting
  | active
  | done
  deriving DecidableEq, Repr

structure SchedState where
  sem : Nat
  tasks : List TaskPhase
  deriving DecidableEq, Repr

def countActiveL : List TaskPhase → Nat
  | [] => 0
  | t :: rest => (if t = TaskPhase.active then 1 else 0) + countActiveL rest

/-- One scheduler transition: a waiting task acquires the semaphore only when
the counter is positive (otherwise it keeps waiting — there is no other rule
for it), and an active task releases on completing its run. -/
inductive SemStep : SchedState → SchedState → Prop
  | acquire (s : SchedState) (i : Nat) (m : Nat)
      (hsem : s.sem = m + 1) (ht : s.tasks[i]? = some TaskPhase.waiting) :
      SemStep s { sem := m, tasks := s.tasks.set i TaskPhase.active }
  | release (s : SchedState) (i : Nat)
      (ht : s.tasks[i]? = some TaskPhase.active) :
      SemStep s { sem := s.sem + 1, tasks := s.tasks.set i TaskPhase.done }

/-- `DownloadManager` start state: a full semaphore and `n` submitted tasks. -/
def initState (k n : Nat) : SchedState :=
  { sem := k, tasks := List.replicate n TaskPhase.waiting }

def Reach (k n : Nat) (s : SchedState) : Prop :=
  Relation.ReflTransGen SemStep (initState k n) s

theorem countActiveL_set_active (l : List TaskPhase) (i : Nat)
    (h : l[i]? = some TaskPhase.waiting) :
    countActiveL (l.set i TaskPhase.active) = countActiveL l + 1 := by
  induction l generalizing i with
  | nil => simp at h
  | cons a rest ih =>
    cases i with
    | zero =>
      rw [List.getElem?_cons_zero] at h
      injection h with h
      subst h
      simp [countActiveL]
      omega
    | succ n =>
      rw [List.getElem?_cons_succ] at h
      rw [List.set_cons_succ]
      simp only [countActiveL]
      rw [ih n h]
      omega

theorem countActiveL_set_done (l : List TaskPhase) (i : Nat)
    (h : l[i]? = some TaskPhase.active) :
    countActiveL (l.set i TaskPhase.done) + 1 = countActiveL l := by
  induction l generalizing i with
  | nil => simp at h
  | cons a rest ih =>
    cases i with
    | zero =>
      rw [List.getElem?_cons_zero] at h
      injection h with h
      subst h
      simp [countActiveL]
      omega
    | succ n =>
      rw [List.getElem?_cons_succ] at h
      rw [List.set_cons_succ]
      simp only [countActiveL]
      rw [← ih n h]
      omega

theorem countActiveL_replicate (n : Nat) :
    countActiveL (List.replicate n TaskPhase.waiting) = 0 := by
  induction n with
  | zero => rfl
  | succ m ih => simp [List.replicate_succ, countActiveL, ih]

/-- Each transition preserves the gate invariant. -/
theorem step_invariant (k : Nat) (a b : SchedState) (hstep : SemStep a b)
    (ih : a.sem + countActiveL a.tasks = k) : b.sem + countActiveL b.tasks = k := by
  cases hstep with
  | acquire i m hsem ht =>
    have hc := countActiveL_set_active a.tasks i ht
    dsimp only
    rw [hc]
    omega
  | release i ht =>
    have hc := countActiveL_set_done a.tasks i ht
    dsimp only
    omega

/-- The admission-gate invariant: open slots plus active pipelines always
equal the pool size. -/
theorem reach_invariant (k n : Nat) (s : SchedState) (h : Reach k n s) :
    s.sem + countActiveL s.tasks = k := by
  induction h with
  | refl => simp [initState, countActiveL_replicate]
  | tail _hsteps hstep ih => exact step_invariant k _ _ hstep ih

/-- Claim C9: in every state reachable from a batch start, at most
`pool_size` (= 4) pipelines are simultaneously inside the admission gate;
a pipeline acquires a slot before any of its work (the only transition out of
`waiting` is the guarded acquire) and releases exactly when its run ends, and
when the gate is full the semaphore is exhausted, so further acquires are
disabled and the remaining pipelines wait. -/
theorem c9_concurrency_bound (n : Nat) (s : SchedState) (h : Reach pool_size n s) :
    countActiveL s.tasks ≤ pool_size ∧
    (countActiveL s.tasks = pool_size → s.sem = 0) := by
  have hinv := reach_invariant pool_size n s h
  exact ⟨by omega, fun _ => by omega⟩

/-- Witness for C9 at the initial state of a `pool_size * 3` item batch. -/
theorem c9_concurrency_bound_witness :
    countActiveL (initState pool_size 12).tasks ≤ pool_size :=
  (c9_concurrency_bound 12 (initState pool_size 12) Relation.ReflTransGen.refl).1
